import Mathlib

/-!
Verification of the client-side gallery controller of the NgoKhoi_instagram
portfolio site.

The development shallowly embeds the data manifest (src/js/media-data.js) and
the PortfolioApp controller (src/js/gallery.js; where the optimized
lazy-loading variant of the same controller differs, the definition says so in
its comment).  DOM state observable through the controller is carried in an
explicit AppState record, DOM element presence in a Dom record, and the
JavaScript exceptions that member access on null or undefined raises are made
explicit as an Option JsErr component of each operation result.
-/

/-- Media type tag; the source uses the strings "image" and "video". -/
inductive MediaType where
  | image
  | video
deriving DecidableEq, Repr

/-- One entry of MEDIA_DATA.images or MEDIA_DATA.videos: a source path, an
ISO YYYY-MM-DD date string, and (for videos) an optional poster path. -/
structure RawItem where
  src : String
  date : String
  poster : Option String := none
deriving DecidableEq, Repr

/-- A catalog entry as produced by the ALL_MEDIA construction: a RawItem
spread together with a type tag (media-data.js lines 102-105). -/
structure MediaItem where
  src : String
  date : String
  poster : Option String := none
  type : MediaType
deriving DecidableEq, Repr

/-- Numeric key of an ISO YYYY-MM-DD date string, obtained by keeping the
digits: "2025-11-08" becomes 20251108.  The source compares dates with
new Date(b.date) - new Date(a.date); on valid ISO date strings the timestamp
order agrees with the order of this key. -/
def dateNum (s : String) : Nat :=
  s.data.foldl (fun n c => if c.isDigit then n * 10 + (c.toNat - 48) else n) 0

/-- The ALL_MEDIA sort comparator, (a, b) => new Date(b.date) - new Date(a.date):
a may be placed before b exactly when the comparator is nonpositive, that is,
when the date of b is not later than the date of a (descending order). -/
def dateGe (a b : MediaItem) : Bool :=
  decide (dateNum b.date ≤ dateNum a.date)

/-- The image spread of the construction: img => ( ...img, type: "image" ). -/
def tagImage (r : RawItem) : MediaItem :=
  { src := r.src, date := r.date, poster := r.poster, type := .image }

/-- The video spread of the construction: vid => ( ...vid, type: "video" ). -/
def tagVideo (r : RawItem) : MediaItem :=
  { src := r.src, date := r.date, poster := r.poster, type := .video }

/-- The ALL_MEDIA construction (media-data.js lines 101-105): tag and
concatenate the two sub-lists, then sort descending by date.
Array.prototype.sort is stable, which the stable mergeSort models. -/
def mkAllMedia (images videos : List RawItem) : List MediaItem :=
  ((images.map tagImage) ++ (videos.map tagVideo)).mergeSort dateGe
/-- The images sub-list of MEDIA_DATA (src/js/media-data.js lines 10-83). -/
def imagesData : List RawItem := [
  { src := "assets/media/instagram/2025-11-08_12-11-37_UTC_1.jpg", date := "2025-11-08" },
  { src := "assets/media/instagram/2025-11-08_12-11-37_UTC_2.jpg", date := "2025-11-08" },
  { src := "assets/media/instagram/2025-11-08_12-11-37_UTC_3.jpg", date := "2025-11-08" },
  { src := "assets/media/instagram/2025-11-08_12-11-37_UTC_4.jpg", date := "2025-11-08" },
  { src := "assets/media/instagram/2025-11-08_12-11-37_UTC_5.jpg", date := "2025-11-08" },
  { src := "assets/media/instagram/2025-11-08_12-11-37_UTC_6.jpg", date := "2025-11-08" },
  { src := "assets/media/instagram/2025-11-08_12-11-37_UTC_7.jpg", date := "2025-11-08" },
  { src := "assets/media/instagram/2025-09-08_16-42-50_UTC_1.jpg", date := "2025-09-08" },
  { src := "assets/media/instagram/2025-09-08_16-42-50_UTC_2.jpg", date := "2025-09-08" },
  { src := "assets/media/instagram/2025-09-08_16-42-50_UTC_4.jpg", date := "2025-09-08" },
  { src := "assets/media/instagram/2025-09-08_16-42-50_UTC_5.jpg", date := "2025-09-08" },
  { src := "assets/media/instagram/2025-09-08_16-42-50_UTC_6.jpg", date := "2025-09-08" },
  { src := "assets/media/instagram/2025-09-08_16-42-50_UTC_7.jpg", date := "2025-09-08" },
  { src := "assets/media/instagram/2025-07-06_14-09-53_UTC_1.jpg", date := "2025-07-06" },
  { src := "assets/media/instagram/2025-07-06_14-09-53_UTC_2.jpg", date := "2025-07-06" },
  { src := "assets/media/instagram/2025-05-19_16-11-23_UTC_1.jpg", date := "2025-05-19" },
  { src := "assets/media/instagram/2025-05-19_16-11-23_UTC_3.jpg", date := "2025-05-19" },
  { src := "assets/media/instagram/2025-05-19_16-11-23_UTC_4.jpg", date := "2025-05-19" },
  { src := "assets/media/instagram/2025-05-19_16-11-23_UTC_5.jpg", date := "2025-05-19" },
  { src := "assets/media/instagram/2025-04-14_09-26-31_UTC_1.jpg", date := "2025-04-14" },
  { src := "assets/media/instagram/2025-04-14_09-26-31_UTC_2.jpg", date := "2025-04-14" },
  { src := "assets/media/instagram/2025-04-14_09-26-31_UTC_4.jpg", date := "2025-04-14" },
  { src := "assets/media/instagram/2025-04-14_09-26-31_UTC_6.jpg", date := "2025-04-14" },
  { src := "assets/media/instagram/2024-12-31_08-49-28_UTC_1.jpg", date := "2024-12-31" },
  { src := "assets/media/instagram/2024-12-31_08-49-28_UTC_2.jpg", date := "2024-12-31" },
  { src := "assets/media/instagram/2024-12-31_08-49-28_UTC_3.jpg", date := "2024-12-31" },
  { src := "assets/media/instagram/2024-12-31_08-49-28_UTC_4.jpg", date := "2024-12-31" },
  { src := "assets/media/instagram/2024-12-31_08-49-28_UTC_5.jpg", date := "2024-12-31" },
  { src := "assets/media/instagram/2024-12-31_08-49-28_UTC_6.jpg", date := "2024-12-31" },
  { src := "assets/media/instagram/2024-12-31_08-49-28_UTC_7.jpg", date := "2024-12-31" },
  { src := "assets/media/instagram/2024-12-31_08-49-28_UTC_8.jpg", date := "2024-12-31" },
  { src := "assets/media/instagram/2024-07-16_05-22-22_UTC_1.jpg", date := "2024-07-16" },
  { src := "assets/media/instagram/2024-07-16_05-22-22_UTC_2.jpg", date := "2024-07-16" },
  { src := "assets/media/instagram/2024-07-16_05-22-22_UTC_3.jpg", date := "2024-07-16" },
  { src := "assets/media/instagram/2024-07-16_05-22-22_UTC_5.jpg", date := "2024-07-16" },
  { src := "assets/media/instagram/2024-07-16_05-22-22_UTC_6.jpg", date := "2024-07-16" },
  { src := "assets/media/instagram/2024-07-08_06-53-37_UTC_1.jpg", date := "2024-07-08" },
  { src := "assets/media/instagram/2024-07-08_06-53-37_UTC_2.jpg", date := "2024-07-08" },
  { src := "assets/media/instagram/2024-07-08_06-53-37_UTC_3.jpg", date := "2024-07-08" },
  { src := "assets/media/instagram/2024-07-08_06-53-37_UTC_4.jpg", date := "2024-07-08" },
  { src := "assets/media/instagram/2024-07-08_06-53-37_UTC_5.jpg", date := "2024-07-08" },
  { src := "assets/media/instagram/2024-07-08_06-53-37_UTC_6.jpg", date := "2024-07-08" },
  { src := "assets/media/instagram/2024-06-05_10-35-02_UTC_1.jpg", date := "2024-06-05" },
  { src := "assets/media/instagram/2024-06-05_10-35-02_UTC_2.jpg", date := "2024-06-05" },
  { src := "assets/media/instagram/2024-04-19_09-25-08_UTC_1.jpg", date := "2024-04-19" },
  { src := "assets/media/instagram/2024-04-19_09-25-08_UTC_2.jpg", date := "2024-04-19" },
  { src := "assets/media/instagram/2024-04-19_09-25-08_UTC_3.jpg", date := "2024-04-19" },
  { src := "assets/media/instagram/2024-04-19_09-25-08_UTC_4.jpg", date := "2024-04-19" },
  { src := "assets/media/instagram/2024-04-19_09-25-08_UTC_5.jpg", date := "2024-04-19" },
  { src := "assets/media/instagram/2024-04-19_09-25-08_UTC_6.jpg", date := "2024-04-19" },
  { src := "assets/media/instagram/2024-03-18_04-05-40_UTC_1.jpg", date := "2024-03-18" },
  { src := "assets/media/instagram/2024-03-18_04-05-40_UTC_2.jpg", date := "2024-03-18" },
  { src := "assets/media/instagram/2024-03-18_04-05-40_UTC_3.jpg", date := "2024-03-18" },
  { src := "assets/media/instagram/2024-03-04_05-16-17_UTC_1.jpg", date := "2024-03-04" },
  { src := "assets/media/instagram/2024-03-04_05-16-17_UTC_2.jpg", date := "2024-03-04" },
  { src := "assets/media/instagram/2024-03-04_05-16-17_UTC_3.jpg", date := "2024-03-04" },
  { src := "assets/media/instagram/2024-03-04_05-16-17_UTC_5.jpg", date := "2024-03-04" },
  { src := "assets/media/instagram/2024-03-04_05-16-17_UTC_7.jpg", date := "2024-03-04" },
  { src := "assets/media/instagram/2024-02-19_02-47-10_UTC_1.jpg", date := "2024-02-19" },
  { src := "assets/media/instagram/2024-02-19_02-47-10_UTC_2.jpg", date := "2024-02-19" },
  { src := "assets/media/instagram/2024-02-19_02-47-10_UTC_3.jpg", date := "2024-02-19" },
  { src := "assets/media/instagram/2024-02-19_02-47-10_UTC_5.jpg", date := "2024-02-19" },
  { src := "assets/media/instagram/2023-11-25_01-51-41_UTC_1.jpg", date := "2023-11-25" },
  { src := "assets/media/instagram/2023-11-25_01-51-41_UTC_2.jpg", date := "2023-11-25" },
  { src := "assets/media/instagram/2023-11-25_01-51-41_UTC_3.jpg", date := "2023-11-25" },
  { src := "assets/media/instagram/2023-11-25_01-51-41_UTC_4.jpg", date := "2023-11-25" },
  { src := "assets/media/instagram/2023-11-25_01-51-41_UTC_5.jpg", date := "2023-11-25" },
  { src := "assets/media/instagram/2023-11-25_01-51-41_UTC_6.jpg", date := "2023-11-25" },
  { src := "assets/media/instagram/2023-11-25_01-51-41_UTC_7.jpg", date := "2023-11-25" }
]

/-- The videos sub-list of MEDIA_DATA (src/js/media-data.js lines 85-98); every poster is null. -/
def videosData : List RawItem := [
  { src := "assets/media/instagram/2025-06-15_14-13-35_UTC.mp4", date := "2025-06-15", poster := none },
  { src := "assets/media/instagram/2025-09-08_16-42-50_UTC_3.mp4", date := "2025-09-08", poster := none },
  { src := "assets/media/instagram/2025-07-06_14-09-53_UTC_3.mp4", date := "2025-07-06", poster := none },
  { src := "assets/media/instagram/2025-07-06_14-09-53_UTC_4.mp4", date := "2025-07-06", poster := none },
  { src := "assets/media/instagram/2025-05-19_16-11-23_UTC_2.mp4", date := "2025-05-19", poster := none },
  { src := "assets/media/instagram/2025-04-14_09-26-31_UTC_3.mp4", date := "2025-04-14", poster := none },
  { src := "assets/media/instagram/2025-04-14_09-26-31_UTC_5.mp4", date := "2025-04-14", poster := none },
  { src := "assets/media/instagram/2024-07-16_05-22-22_UTC_4.mp4", date := "2024-07-16", poster := none },
  { src := "assets/media/instagram/2024-04-19_09-25-08_UTC_7.mp4", date := "2024-04-19", poster := none },
  { src := "assets/media/instagram/2024-03-04_05-16-17_UTC_4.mp4", date := "2024-03-04", poster := none },
  { src := "assets/media/instagram/2024-03-04_05-16-17_UTC_6.mp4", date := "2024-03-04", poster := none },
  { src := "assets/media/instagram/2024-02-19_02-47-10_UTC_4.mp4", date := "2024-02-19", poster := none }
]

/-- ALL_MEDIA (media-data.js lines 101-105), over the concrete manifest. -/
def ALL_MEDIA : List MediaItem := mkAllMedia imagesData videosData
/-- A rendered carousel slide (renderSlides builds one DOM node per rendered
media item).  A video slide carries the playback flag of its video element and
whether its play overlay is hidden (opacity 0); an image slide has neither. -/
inductive Slide where
  | image
  | video (playing : Bool) (overlayHidden : Bool)
deriving DecidableEq, Repr

/-- The slide built for one media item (gallery.js lines 150-172): a video
node with a visible play overlay for type "video", an image node otherwise.
Freshly built videos are not playing and their overlay is shown. -/
def mkSlide (m : MediaItem) : Slide :=
  if m.type = .video then .video false false else .image

/-- The view state of the controller: this.currentView. -/
inductive ViewName where
  | hero
  | gallery
deriving DecidableEq, Repr

/-- Content of the lightboxContent container: cleared, a single image, or a
single video element with its playback flag. -/
inductive LbContent where
  | empty
  | image
  | video (playing : Bool)
deriving DecidableEq, Repr

/-- A JavaScript TypeError as raised by the controller: member access on a
null DOM reference, or reading .type of an undefined array element. -/
inductive JsErr where
  | nullDeref
  | undefinedItem
deriving DecidableEq, Repr

/-- Presence of the DOM mount points cached by cacheDOM that the modeled
operations touch.  getElementById returns null for an absent element; a field
set to false stands for such a null reference. -/
structure Dom where
  heroCover : Bool
  galleryView : Bool
  swiperWrapper : Bool
  currentIndexEl : Bool
  totalItemsEl : Bool
  lightbox : Bool
  lightboxContent : Bool
deriving DecidableEq, Repr

/-- The page with every mount point present. -/
def fullDom : Dom :=
  { heroCover := true, galleryView := true, swiperWrapper := true,
    currentIndexEl := true, totalItemsEl := true, lightbox := true,
    lightboxContent := true }

/-- The observable state of a PortfolioApp instance together with the DOM it
drives.  catalog is the module-level ALL_MEDIA constant the instance reads;
swiperGen counts Swiper constructions, so that two distinct widget instances
are distinguishable; activeIdx is the active slide of the current widget. -/
structure AppState where
  currentView : ViewName
  currentFilter : MediaType
  filteredMedia : List MediaItem
  catalog : List MediaItem
  slides : List Slide
  activeIdx : Nat
  swiperInit : Bool
  swiperGen : Nat
  heroHidden : Bool
  galleryShown : Bool
  counterIdx : Nat
  totalShown : Nat
  lightboxActive : Bool
  lightboxIndex : Option Int
  lbContent : LbContent
  scrollLocked : Bool
deriving DecidableEq, Repr

/-- The constructor state (gallery.js lines 9-14): hero view, image filter,
filteredMedia prefiltered from the catalog, no Swiper yet, and a DOM with no
slides, closed lightbox and this.lightboxIndex still undefined (none). -/
def initState (cat : List MediaItem) : AppState :=
  { currentView := .hero
    currentFilter := .image
    filteredMedia := cat.filter (fun m => m.type == MediaType.image)
    catalog := cat
    slides := []
    activeIdx := 0
    swiperInit := false
    swiperGen := 0
    heroHidden := false
    galleryShown := false
    counterIdx := 0
    totalShown := 0
    lightboxActive := false
    lightboxIndex := none
    lbContent := .empty
    scrollLocked := false }

/-- Playback flag of a slide; an image slide is never playing. -/
def isPlaying : Slide → Bool
  | .video p _ => p
  | .image => false

/-- Effect of pauseAllVideos on one slide: pause and rewind the video and
show its overlay again; an image slide is untouched. -/
def pauseSlide : Slide → Slide
  | .video _ _ => .video false false
  | .image => .image

/-- pauseAllVideos (gallery.js lines 246-253): pause and rewind every video
matched by ".gallery-swiper video" and restore every ".video-overlay".  The
selector reaches only carousel slides, not the lightbox video. -/
def pauseAllVideos (s : AppState) : AppState :=
  { s with slides := s.slides.map pauseSlide }

/-- handleVideoAutoplay (gallery.js lines 229-244): pause everything, then if
the active slide holds a video, attempt to play it; playOk tells whether the
asynchronous play() attempt succeeds, and a rejection is swallowed by the
.catch(() => ( )).  The play overlay is set to opacity 0 right after the
attempt is started, regardless of playOk.  The optimized variant additionally
resolves the deferred data-src first, which this state does not track. -/
def handleVideoAutoplay (playOk : Bool) (s : AppState) : AppState :=
  let t := pauseAllVideos s
  match t.slides[t.activeIdx]? with
  | some (.video _ _) =>
      { t with slides := t.slides.set t.activeIdx (.video playOk true) }
  | _ => t

/-- updateCounter (gallery.js lines 255-258): both element accesses are
guarded, so a missing counter element only disables the display. -/
def updateCounter (d : Dom) (i : Nat) (s : AppState) : AppState :=
  let t := if d.currentIndexEl then { s with counterIdx := i } else s
  if d.totalItemsEl then { t with totalShown := t.filteredMedia.length } else t

/-- renderSlides (gallery.js lines 145-176): an early return guards a missing
wrapper; otherwise the wrapper is cleared and rebuilt with one slide per item
of filteredMedia (the full replace), and the counter is reset to 0.  The
optimized variant additionally truncates to 20 items on narrow viewports,
modeled separately by renderSlidesOpt. -/
def renderSlides (d : Dom) (s : AppState) : AppState :=
  if !d.swiperWrapper then s
  else updateCounter d 0 { s with slides := s.filteredMedia.map mkSlide }

/-- renderSlidesOpt: the slide materialization of the optimized variant
(lines 249-296 of the lazy-loading controller): on a narrow viewport only the
first 20 items of the filtered view are rendered, and each slide node is
tagged with its dataset.index, its 0-based position in the rendered list. -/
def renderSlidesOpt (isMobile : Bool) (fv : List MediaItem) : List (Nat × Slide) :=
  let mediaToRender := if isMobile then fv.take 20 else fv
  mediaToRender.enum.map (fun p => (p.1, mkSlide p.2))

/-- initSwiper (gallery.js lines 178-227): construct a fresh Swiper over the
rendered slides (a new widget instance, starting at slide 0), then run the
initial autoplay check. -/
def initSwiper (playOk : Bool) (s : AppState) : AppState :=
  let t := { s with swiperInit := true, swiperGen := s.swiperGen + 1, activeIdx := 0 }
  handleVideoAutoplay playOk t

/-- handleTabSwitch (gallery.js lines 123-142): unconditionally update the
filter, recompute filteredMedia from the catalog, rebuild the slides, destroy
the old Swiper if any, and construct a new one.  There is no guard comparing
the new filter with the current one.  Every DOM access on this path is guarded
in the source, so no TypeError can arise: the second component is always none. -/
def handleTabSwitch (d : Dom) (f : MediaType) (playOk : Bool) (s : AppState) :
    AppState × Option JsErr :=
  let t := { s with currentFilter := f,
                    filteredMedia := s.catalog.filter (fun m => m.type == f) }
  let t := renderSlides d t
  (initSwiper playOk t, none)

/-- The synchronous body of showGallery (gallery.js lines 89-105): set the
view, then hide the hero cover.  this.heroCover.classList is dereferenced
without a guard, so a missing heroCover raises a TypeError to the caller
after currentView has already been flipped.  The reveal of the gallery runs
in a later 300 ms timer callback, showGalleryTimeout. -/
def showGallery (d : Dom) (s : AppState) : AppState × Option JsErr :=
  let t := { s with currentView := .gallery }
  if !d.heroCover then (t, some .nullDeref)
  else ({ t with heroHidden := true }, none)

/-- The 300 ms timer callback of showGallery (gallery.js lines 96-104):
reveal the gallery (unguarded galleryView dereference, though this one faults
inside the timer callback, not in the caller of showGallery), and on first
entry render the slides and construct the Swiper. -/
def showGalleryTimeout (d : Dom) (playOk : Bool) (s : AppState) :
    AppState × Option JsErr :=
  if !d.galleryView then (s, some .nullDeref)
  else
    let t := { s with galleryShown := true }
    if !t.swiperInit then (initSwiper playOk (renderSlides d t), none)
    else (t, none)

/-- The synchronous body of showHero (gallery.js lines 107-120): set the
view, hide the gallery (unguarded galleryView dereference raising to the
caller when absent), schedule the hero reveal, then pause all videos. -/
def showHero (d : Dom) (s : AppState) : AppState × Option JsErr :=
  let t := { s with currentView := .hero }
  if !d.galleryView then (t, some .nullDeref)
  else (pauseAllVideos { t with galleryShown := false }, none)

/-- The 300 ms timer callback of showHero (gallery.js lines 114-116). -/
def showHeroTimeout (d : Dom) (s : AppState) : AppState × Option JsErr :=
  if !d.heroCover then (s, some .nullDeref)
  else ({ s with heroHidden := false }, none)

/-- filteredMedia[index] for a JavaScript index that may be NaN (none): a
NaN or negative or out-of-range subscript yields undefined (none). -/
def jsIndex (l : List MediaItem) : Option Int → Option MediaItem
  | none => none
  | some i => if i < 0 then none else l[i.toNat]?

/-- openLightbox (gallery.js lines 261-285), in source order: record the
index, read filteredMedia[index], clear lightboxContent (unguarded
dereference), read media.type (a TypeError when the item is undefined),
install the single media element (a video element with autoplay, whose start
may be rejected: lbPlayOk), activate the overlay (unguarded lightbox
dereference), lock scrolling, and finally pause all carousel videos. -/
def openLightbox (d : Dom) (i : Option Int) (lbPlayOk : Bool) (s : AppState) :
    AppState × Option JsErr :=
  let t := { s with lightboxIndex := i }
  let media := jsIndex t.filteredMedia i
  if !d.lightboxContent then (t, some .nullDeref)
  else
    let t := { t with lbContent := .empty }
    match media with
    | none => (t, some .undefinedItem)
    | some m =>
        let t := { t with lbContent := if m.type = .video then .video lbPlayOk else .image }
        if !d.lightbox then (t, some .nullDeref)
        else (pauseAllVideos { t with lightboxActive := true, scrollLocked := true }, none)

/-- Pausing the lightbox video: closeLightbox pauses the video found in
lightboxContent, if any. -/
def pauseLbVideo : LbContent → LbContent
  | .video _ => .video false
  | c => c

/-- closeLightbox (gallery.js lines 287-296): deactivate the overlay
(unguarded lightbox dereference), restore scrolling, pause the lightbox video
(unguarded lightboxContent dereference), then resume carousel autoplay. -/
def closeLightbox (d : Dom) (playOk : Bool) (s : AppState) : AppState × Option JsErr :=
  if !d.lightbox then (s, some .nullDeref)
  else
    let t := { s with lightboxActive := false, scrollLocked := false }
    if !d.lightboxContent then (t, some .nullDeref)
    else (handleVideoAutoplay playOk { t with lbContent := pauseLbVideo t.lbContent }, none)

/-- navigateLightbox (gallery.js lines 298-302): set
lightboxIndex := (lightboxIndex + direction + total) mod total and re-open
at the new index.  The JavaScript % is the truncating remainder (tmod), and
the arithmetic is NaN (none) when lightboxIndex is still undefined or when
total = 0, since x % 0 is NaN; there is no emptiness guard. -/
def navigateLightbox (d : Dom) (dir : Int) (lbPlayOk : Bool) (s : AppState) :
    AppState × Option JsErr :=
  let total : Int := s.filteredMedia.length
  let newIdx : Option Int :=
    match s.lightboxIndex with
    | none => none
    | some i => if total = 0 then none else some ((i + dir + total).tmod total)
  openLightbox d newIdx lbPlayOk { s with lightboxIndex := newIdx }
/-- The user-interface events the controller reacts to (bindEvents, the
Swiper callbacks, and the keyboard handler, which only re-dispatches to the
same operations).  The Bool parameters carry the outcome of the asynchronous
play() attempt the event leads to. -/
inductive Ev where
  | enterGallery (playOk : Bool)
  | backToHero
  | tabSwitch (f : MediaType) (playOk : Bool)
  | slideChange (i : Nat) (playOk : Bool)
  | slideClick (i : Nat) (lbPlayOk : Bool)
  | lbClose (playOk : Bool)
  | lbNav (dir : Int) (lbPlayOk : Bool)
deriving DecidableEq, Repr

/-- One event step of the controller on the full page (fullDom).  The guards
state when the browser can deliver the event: the hero and gallery controls
and the Swiper surface are not interactable while the full-screen lightbox
overlay is active (and the keyboard handler routes keys to the lightbox
then), slideChange and slide clicks need a constructed Swiper and an existing
slide, a click opens the lightbox only on the active slide, and the lightbox
prev and next controls always pass direction -1 or +1.  The fixed 300 ms
transition timers are run with their scheduling event, as nothing else
intervenes in this single-threaded model. -/
def step (e : Ev) (s : AppState) : AppState :=
  match e with
  | .enterGallery b =>
      if s.currentView = .hero ∧ !s.lightboxActive then
        (showGalleryTimeout fullDom b (showGallery fullDom s).1).1
      else s
  | .backToHero =>
      if s.currentView = .gallery ∧ !s.lightboxActive then
        (showHeroTimeout fullDom (showHero fullDom s).1).1
      else s
  | .tabSwitch f b =>
      if s.currentView = .gallery ∧ !s.lightboxActive then
        (handleTabSwitch fullDom f b s).1
      else s
  | .slideChange i b =>
      if s.swiperInit ∧ !s.lightboxActive ∧ i < s.slides.length then
        handleVideoAutoplay b (updateCounter fullDom i { s with activeIdx := i })
      else s
  | .slideClick i lb =>
      if s.swiperInit ∧ !s.lightboxActive ∧ i = s.activeIdx ∧ i < s.slides.length then
        (openLightbox fullDom (some (i : Int)) lb s).1
      else s
  | .lbClose b =>
      if s.lightboxActive then (closeLightbox fullDom b s).1 else s
  | .lbNav dir lb =>
      if s.lightboxActive ∧ (dir = -1 ∨ dir = 1) then
        (navigateLightbox fullDom dir lb s).1
      else s

/-- The states a PortfolioApp over catalog cat can reach from its
constructor state through any event sequence. -/
inductive Reachable (cat : List MediaItem) : AppState → Prop where
  | init : Reachable cat (initState cat)
  | step (e : Ev) {s : AppState} : Reachable cat s → Reachable cat (step e s)

/-- Number of carousel videos currently playing. -/
def galleryPlaying (s : AppState) : Nat := s.slides.countP isPlaying

/-- Number of lightbox videos currently playing (the single lightboxContent
element holds at most one). -/
def lbPlaying (s : AppState) : Nat :=
  match s.lbContent with
  | .video true => 1
  | _ => 0

/-- Number of video elements across the whole document in a playing state. -/
def totalPlaying (s : AppState) : Nat := galleryPlaying s + lbPlaying s

/-- The playback discipline the controller maintains: at most one carousel
video plays, a closed lightbox has no playing video, and an open lightbox
silences the carousel. -/
def PlayInv (s : AppState) : Prop :=
  galleryPlaying s ≤ 1 ∧
  (s.lightboxActive = false → lbPlaying s = 0) ∧
  (s.lightboxActive = true → galleryPlaying s = 0)
/-! ### Elementary facts about the operations -/

theorem isPlaying_pauseSlide (a : Slide) : isPlaying (pauseSlide a) = false := by
  cases a <;> rfl

theorem isPlaying_mkSlide (m : MediaItem) : isPlaying (mkSlide m) = false := by
  unfold mkSlide
  split <;> rfl

theorem pauseSlide_pauseSlide (a : Slide) : pauseSlide (pauseSlide a) = pauseSlide a := by
  cases a <;> rfl

theorem galleryPlaying_pauseAllVideos (s : AppState) :
    galleryPlaying (pauseAllVideos s) = 0 := by
  unfold galleryPlaying pauseAllVideos
  rw [List.countP_map, List.countP_eq_zero]
  intro a _
  simp [Function.comp, isPlaying_pauseSlide]

theorem pauseAllVideos_idem (s : AppState) :
    pauseAllVideos (pauseAllVideos s) = pauseAllVideos s := by
  unfold pauseAllVideos
  simp only [List.map_map]
  congr 1
  exact List.map_congr_left (fun a _ => pauseSlide_pauseSlide a)

theorem lbPlaying_le_one (s : AppState) : lbPlaying s ≤ 1 := by
  unfold lbPlaying
  split <;> simp

theorem pauseAllVideos_proj (s : AppState) :
    (pauseAllVideos s).filteredMedia = s.filteredMedia ∧
    (pauseAllVideos s).catalog = s.catalog ∧
    (pauseAllVideos s).lbContent = s.lbContent ∧
    (pauseAllVideos s).lightboxActive = s.lightboxActive ∧
    (pauseAllVideos s).lightboxIndex = s.lightboxIndex ∧
    (pauseAllVideos s).currentFilter = s.currentFilter ∧
    (pauseAllVideos s).activeIdx = s.activeIdx ∧
    (pauseAllVideos s).swiperGen = s.swiperGen ∧
    (pauseAllVideos s).swiperInit = s.swiperInit := by
  exact ⟨rfl, rfl, rfl, rfl, rfl, rfl, rfl, rfl, rfl⟩

theorem handleVideoAutoplay_proj (b : Bool) (s : AppState) :
    (handleVideoAutoplay b s).filteredMedia = s.filteredMedia ∧
    (handleVideoAutoplay b s).catalog = s.catalog ∧
    (handleVideoAutoplay b s).lbContent = s.lbContent ∧
    (handleVideoAutoplay b s).lightboxActive = s.lightboxActive ∧
    (handleVideoAutoplay b s).lightboxIndex = s.lightboxIndex ∧
    (handleVideoAutoplay b s).currentFilter = s.currentFilter ∧
    (handleVideoAutoplay b s).activeIdx = s.activeIdx ∧
    (handleVideoAutoplay b s).swiperGen = s.swiperGen ∧
    (handleVideoAutoplay b s).swiperInit = s.swiperInit := by
  unfold handleVideoAutoplay
  dsimp only
  split <;> exact ⟨rfl, rfl, rfl, rfl, rfl, rfl, rfl, rfl, rfl⟩

theorem galleryPlaying_handleVideoAutoplay (b : Bool) (s : AppState) :
    galleryPlaying (handleVideoAutoplay b s) ≤ 1 := by
  unfold handleVideoAutoplay
  have h0 := galleryPlaying_pauseAllVideos s
  dsimp only
  split
  · rename_i pl oh heq
    rcases List.getElem?_eq_some_iff.mp heq with ⟨hlt, _⟩
    unfold galleryPlaying at h0 ⊢
    rw [List.countP_set isPlaying _ _ _ hlt, h0]
    cases b <;> simp [isPlaying]
  · simp [h0]

theorem updateCounter_proj (d : Dom) (i : Nat) (s : AppState) :
    (updateCounter d i s).filteredMedia = s.filteredMedia ∧
    (updateCounter d i s).catalog = s.catalog ∧
    (updateCounter d i s).lbContent = s.lbContent ∧
    (updateCounter d i s).lightboxActive = s.lightboxActive ∧
    (updateCounter d i s).lightboxIndex = s.lightboxIndex ∧
    (updateCounter d i s).currentFilter = s.currentFilter ∧
    (updateCounter d i s).activeIdx = s.activeIdx ∧
    (updateCounter d i s).swiperGen = s.swiperGen ∧
    (updateCounter d i s).swiperInit = s.swiperInit ∧
    (updateCounter d i s).slides = s.slides := by
  unfold updateCounter
  split <;> split <;> exact ⟨rfl, rfl, rfl, rfl, rfl, rfl, rfl, rfl, rfl, rfl⟩
theorem renderSlides_proj (d : Dom) (s : AppState) :
    (renderSlides d s).filteredMedia = s.filteredMedia ∧
    (renderSlides d s).catalog = s.catalog ∧
    (renderSlides d s).lbContent = s.lbContent ∧
    (renderSlides d s).lightboxActive = s.lightboxActive ∧
    (renderSlides d s).lightboxIndex = s.lightboxIndex ∧
    (renderSlides d s).currentFilter = s.currentFilter ∧
    (renderSlides d s).activeIdx = s.activeIdx ∧
    (renderSlides d s).swiperGen = s.swiperGen ∧
    (renderSlides d s).swiperInit = s.swiperInit := by
  unfold renderSlides
  split
  · exact ⟨rfl, rfl, rfl, rfl, rfl, rfl, rfl, rfl, rfl⟩
  · rcases updateCounter_proj d 0 { s with slides := s.filteredMedia.map mkSlide } with
      ⟨h1, h2, h3, h4, h5, h6, h7, h8, h9, _⟩
    exact ⟨h1, h2, h3, h4, h5, h6, h7, h8, h9⟩

theorem galleryPlaying_renderSlides (d : Dom) (s : AppState) :
    galleryPlaying (renderSlides d s) = galleryPlaying s ∨
    galleryPlaying (renderSlides d s) = 0 := by
  unfold renderSlides
  split
  · exact Or.inl rfl
  · right
    have hs := (updateCounter_proj d 0 { s with slides := s.filteredMedia.map mkSlide }).2.2.2.2.2.2.2.2.2
    unfold galleryPlaying
    rw [hs]
    simp only [List.countP_map, List.countP_eq_zero]
    intro a _
    simp [Function.comp, isPlaying_mkSlide]

theorem initSwiper_proj (b : Bool) (s : AppState) :
    (initSwiper b s).filteredMedia = s.filteredMedia ∧
    (initSwiper b s).catalog = s.catalog ∧
    (initSwiper b s).lbContent = s.lbContent ∧
    (initSwiper b s).lightboxActive = s.lightboxActive ∧
    (initSwiper b s).lightboxIndex = s.lightboxIndex ∧
    (initSwiper b s).currentFilter = s.currentFilter ∧
    (initSwiper b s).activeIdx = 0 ∧
    (initSwiper b s).swiperGen = s.swiperGen + 1 ∧
    (initSwiper b s).swiperInit = true := by
  unfold initSwiper
  rcases handleVideoAutoplay_proj b
      { s with swiperInit := true, swiperGen := s.swiperGen + 1, activeIdx := 0 } with
    ⟨h1, h2, h3, h4, h5, h6, h7, h8, h9⟩
  exact ⟨h1, h2, h3, h4, h5, h6, h7, h8, h9⟩

theorem galleryPlaying_initSwiper (b : Bool) (s : AppState) :
    galleryPlaying (initSwiper b s) ≤ 1 :=
  galleryPlaying_handleVideoAutoplay b _

theorem handleTabSwitch_snd (d : Dom) (f : MediaType) (b : Bool) (s : AppState) :
    (handleTabSwitch d f b s).2 = none := rfl

theorem handleTabSwitch_proj (d : Dom) (f : MediaType) (b : Bool) (s : AppState) :
    (handleTabSwitch d f b s).1.filteredMedia = s.catalog.filter (fun m => m.type == f) ∧
    (handleTabSwitch d f b s).1.catalog = s.catalog ∧
    (handleTabSwitch d f b s).1.lbContent = s.lbContent ∧
    (handleTabSwitch d f b s).1.lightboxActive = s.lightboxActive ∧
    (handleTabSwitch d f b s).1.lightboxIndex = s.lightboxIndex ∧
    (handleTabSwitch d f b s).1.currentFilter = f ∧
    (handleTabSwitch d f b s).1.activeIdx = 0 ∧
    (handleTabSwitch d f b s).1.swiperGen = s.swiperGen + 1 ∧
    (handleTabSwitch d f b s).1.swiperInit = true := by
  unfold handleTabSwitch
  dsimp only
  set t1 : AppState :=
    { s with currentFilter := f,
             filteredMedia := s.catalog.filter (fun m => m.type == f) } with ht1
  rcases renderSlides_proj d t1 with ⟨r1, r2, r3, r4, r5, r6, _, r8, _⟩
  rcases initSwiper_proj b (renderSlides d t1) with ⟨i1, i2, i3, i4, i5, i6, i7, i8, i9⟩
  refine ⟨?_, ?_, ?_, ?_, ?_, ?_, i7, ?_, i9⟩
  · rw [i1, r1]
  · rw [i2, r2]
  · rw [i3, r3]
  · rw [i4, r4]
  · rw [i5, r5]
  · rw [i6, r6]
  · rw [i8, r8]

theorem galleryPlaying_handleTabSwitch (d : Dom) (f : MediaType) (b : Bool) (s : AppState) :
    galleryPlaying (handleTabSwitch d f b s).1 ≤ 1 :=
  galleryPlaying_initSwiper b _

theorem showGalleryFull_eq (b : Bool) (s : AppState) :
    (showGalleryTimeout fullDom b (showGallery fullDom s).1).1 =
      (if s.swiperInit then
        ({ s with currentView := .gallery, heroHidden := true, galleryShown := true } : AppState)
      else
        initSwiper b (renderSlides fullDom
          { s with currentView := .gallery, heroHidden := true, galleryShown := true })) := by
  cases hs : s.swiperInit <;>
    simp [showGallery, showGalleryTimeout, fullDom, hs]

theorem showHeroFull_eq (s : AppState) :
    (showHeroTimeout fullDom (showHero fullDom s).1).1 =
      { (pauseAllVideos { s with currentView := .hero, galleryShown := false }) with
          heroHidden := false } := rfl

theorem closeLightbox_full_eq (b : Bool) (s : AppState) :
    closeLightbox fullDom b s =
      (handleVideoAutoplay b
        { s with lightboxActive := false, scrollLocked := false,
                 lbContent := pauseLbVideo s.lbContent }, none) := rfl

theorem openLightbox_none_eq (i : Option Int) (lb : Bool) (s : AppState)
    (h : jsIndex s.filteredMedia i = none) :
    openLightbox fullDom i lb s =
      ({ s with lightboxIndex := i, lbContent := .empty }, some .undefinedItem) := by
  simp [openLightbox, fullDom, h]

theorem openLightbox_some_eq (i : Option Int) (m : MediaItem) (lb : Bool) (s : AppState)
    (h : jsIndex s.filteredMedia i = some m) :
    openLightbox fullDom i lb s =
      (pauseAllVideos
        { s with lightboxIndex := i,
                 lbContent := if m.type = .video then .video lb else .image,
                 lightboxActive := true, scrollLocked := true }, none) := by
  simp [openLightbox, fullDom, h]

theorem navigateLightbox_some_eq (d : Dom) (dir : Int) (lb : Bool) (s : AppState) (i : Int)
    (hidx : s.lightboxIndex = some i) (hlen : s.filteredMedia.length ≠ 0) :
    navigateLightbox d dir lb s =
      openLightbox d (some ((i + dir + s.filteredMedia.length).tmod s.filteredMedia.length)) lb
        { s with lightboxIndex :=
            (some ((i + dir + s.filteredMedia.length).tmod s.filteredMedia.length)) } := by
  have hz : (s.filteredMedia.length : Int) ≠ 0 := by exact_mod_cast hlen
  simp [navigateLightbox, hidx, hz]

theorem navigateLightbox_nil_eq (d : Dom) (dir : Int) (lb : Bool) (s : AppState)
    (h : s.filteredMedia = []) :
    navigateLightbox d dir lb s =
      openLightbox d none lb { s with lightboxIndex := none } := by
  rcases hL : s.lightboxIndex with _ | i <;> simp [navigateLightbox, h, hL]
theorem lbPlaying_congr {s1 s2 : AppState} (h : s1.lbContent = s2.lbContent) :
    lbPlaying s1 = lbPlaying s2 := by
  unfold lbPlaying
  rw [h]

theorem lbPlaying_paused (s : AppState) (c : LbContent)
    (h : s.lbContent = pauseLbVideo c) : lbPlaying s = 0 := by
  unfold lbPlaying
  rw [h]
  cases c <;> rfl

theorem jsIndex_none (l : List MediaItem) : jsIndex l none = none := rfl

theorem navigateLightbox_noneIdx_eq (d : Dom) (dir : Int) (lb : Bool) (s : AppState)
    (h : s.lightboxIndex = none) :
    navigateLightbox d dir lb s =
      openLightbox d none lb { s with lightboxIndex := none } := by
  simp [navigateLightbox, h]

theorem playInv_step (e : Ev) (s : AppState) (h : PlayInv s) : PlayInv (step e s) := by
  obtain ⟨hA, hB, hC⟩ := h
  cases e with
  | enterGallery b =>
    simp only [step]
    split
    · rename_i hg
      have hlb : s.lightboxActive = false := by
        simpa using hg.2
      rw [showGalleryFull_eq]
      by_cases hsw : s.swiperInit = true
      · rw [if_pos hsw]
        exact ⟨hA, hB, hC⟩
      · rw [if_neg hsw]
        set u : AppState :=
          { s with currentView := .gallery, heroHidden := true, galleryShown := true } with hu
        refine ⟨galleryPlaying_initSwiper b _, ?_, ?_⟩
        · intro _
          have h3 := (initSwiper_proj b (renderSlides fullDom u)).2.2.1
          have r3 := (renderSlides_proj fullDom u).2.2.1
          rw [lbPlaying_congr (h3.trans r3)]
          exact hB hlb
        · intro ht
          have h4 := (initSwiper_proj b (renderSlides fullDom u)).2.2.2.1
          have r4 := (renderSlides_proj fullDom u).2.2.2.1
          rw [h4, r4] at ht
          have ht2 : s.lightboxActive = true := ht
          rw [hlb] at ht2
          exact absurd ht2 (by simp)
    · exact ⟨hA, hB, hC⟩
  | backToHero =>
    simp only [step]
    split
    · rename_i hg
      have hlb : s.lightboxActive = false := by
        simpa using hg.2
      rw [showHeroFull_eq]
      refine ⟨?_, ?_, ?_⟩
      · exact le_of_eq_of_le
          (galleryPlaying_pauseAllVideos { s with currentView := .hero, galleryShown := false })
          (Nat.zero_le 1)
      · intro _
        exact hB hlb
      · intro _
        exact galleryPlaying_pauseAllVideos
          { s with currentView := .hero, galleryShown := false }
    · exact ⟨hA, hB, hC⟩
  | tabSwitch f b =>
    simp only [step]
    split
    · rename_i hg
      have hlb : s.lightboxActive = false := by simpa using hg.2
      refine ⟨galleryPlaying_handleTabSwitch fullDom f b s, ?_, ?_⟩
      · intro _
        rw [lbPlaying_congr (handleTabSwitch_proj fullDom f b s).2.2.1]
        exact hB hlb
      · intro ht
        rw [(handleTabSwitch_proj fullDom f b s).2.2.2.1, hlb] at ht
        exact absurd ht (by simp)
    · exact ⟨hA, hB, hC⟩
  | slideChange i b =>
    simp only [step]
    split
    · rename_i hg
      have hlb : s.lightboxActive = false := by simpa using hg.2.1
      set u : AppState := updateCounter fullDom i { s with activeIdx := i } with hu
      refine ⟨galleryPlaying_handleVideoAutoplay b u, ?_, ?_⟩
      · intro _
        have h3 := (handleVideoAutoplay_proj b u).2.2.1
        have u3 := (updateCounter_proj fullDom i { s with activeIdx := i }).2.2.1
        rw [lbPlaying_congr (h3.trans u3)]
        exact hB hlb
      · intro ht
        have h4 := (handleVideoAutoplay_proj b u).2.2.2.1
        have u4 := (updateCounter_proj fullDom i { s with activeIdx := i }).2.2.2.1
        rw [h4, u4] at ht
        have ht2 : s.lightboxActive = true := ht
        rw [hlb] at ht2
        exact absurd ht2 (by simp)
    · exact ⟨hA, hB, hC⟩
  | slideClick i lb =>
    simp only [step]
    split
    · rename_i hg
      have hlb : s.lightboxActive = false := by simpa using hg.2.1
      rcases hm : jsIndex s.filteredMedia (some (i : Int)) with _ | m
      · rw [openLightbox_none_eq _ _ _ hm]
        refine ⟨hA, ?_, ?_⟩
        · intro _
          rfl
        · intro ht
          have ht2 : s.lightboxActive = true := ht
          rw [hlb] at ht2
          exact absurd ht2 (by simp)
      · rw [openLightbox_some_eq _ m _ _ hm]
        refine ⟨?_, ?_, ?_⟩
        · exact le_of_eq_of_le (galleryPlaying_pauseAllVideos
            { s with lightboxIndex := some (i : Int),
                     lbContent := if m.type = .video then .video lb else .image,
                     lightboxActive := true, scrollLocked := true }) (Nat.zero_le 1)
        · intro ht
          have ht2 : (true : Bool) = false := ht
          exact absurd ht2 (by simp)
        · intro _
          exact galleryPlaying_pauseAllVideos
            { s with lightboxIndex := some (i : Int),
                     lbContent := if m.type = .video then .video lb else .image,
                     lightboxActive := true, scrollLocked := true }
    · exact ⟨hA, hB, hC⟩
  | lbClose b =>
    simp only [step]
    split
    · rw [closeLightbox_full_eq]
      dsimp only
      set u : AppState :=
        { s with lightboxActive := false, scrollLocked := false,
                 lbContent := pauseLbVideo s.lbContent } with hu
      refine ⟨galleryPlaying_handleVideoAutoplay b u, ?_, ?_⟩
      · intro _
        refine lbPlaying_paused _ s.lbContent ?_
        exact (handleVideoAutoplay_proj b u).2.2.1
      · intro ht
        rw [(handleVideoAutoplay_proj b u).2.2.2.1] at ht
        have ht2 : (false : Bool) = true := ht
        exact absurd ht2 (by simp)
    · exact ⟨hA, hB, hC⟩
  | lbNav dir lb =>
    simp only [step]
    split
    · rename_i hg
      have hact : s.lightboxActive = true := by simpa using hg.1
      by_cases hnil : s.filteredMedia.length = 0
      · have hfm : s.filteredMedia = [] := List.length_eq_zero.mp hnil
        rw [navigateLightbox_nil_eq _ _ _ _ hfm]
        rw [openLightbox_none_eq _ _ _ (jsIndex_none _)]
        refine ⟨hA, ?_, ?_⟩
        · intro _
          rfl
        · intro _
          exact hC hact
      · rcases hL : s.lightboxIndex with _ | i
        · rw [navigateLightbox_noneIdx_eq _ _ _ _ hL]
          rw [openLightbox_none_eq _ _ _ (jsIndex_none _)]
          refine ⟨hA, ?_, ?_⟩
          · intro _
            rfl
          · intro _
            exact hC hact
        · rw [navigateLightbox_some_eq _ _ _ _ _ hL hnil]
          set j : Int :=
            (i + dir + s.filteredMedia.length).tmod s.filteredMedia.length with hj
          set s2 : AppState := { s with lightboxIndex := some j } with hs2
          rcases hm : jsIndex s2.filteredMedia (some j) with _ | m
          · rw [openLightbox_none_eq _ _ _ hm]
            refine ⟨hA, ?_, ?_⟩
            · intro _
              rfl
            · intro _
              exact hC hact
          · rw [openLightbox_some_eq _ m _ _ hm]
            refine ⟨?_, ?_, ?_⟩
            · exact le_of_eq_of_le (galleryPlaying_pauseAllVideos
                { s2 with lbContent := if m.type = .video then .video lb else .image,
                          lightboxActive := true, scrollLocked := true }) (Nat.zero_le 1)
            · intro ht
              have ht2 : (true : Bool) = false := ht
              exact absurd ht2 (by simp)
            · intro _
              exact galleryPlaying_pauseAllVideos
                { s2 with lbContent := if m.type = .video then .video lb else .image,
                          lightboxActive := true, scrollLocked := true }
    · exact ⟨hA, hB, hC⟩

theorem playInv_init (cat : List MediaItem) : PlayInv (initState cat) := by
  refine ⟨Nat.zero_le 1, ?_, ?_⟩
  · intro _
    rfl
  · intro _
    rfl

theorem playInv_reachable {cat : List MediaItem} {s : AppState}
    (h : Reachable cat s) : PlayInv s := by
  induction h with
  | init => exact playInv_init cat
  | step e _ ih => exact playInv_step e _ ih

theorem totalPlaying_le_one_of_playInv {s : AppState} (h : PlayInv s) :
    totalPlaying s ≤ 1 := by
  obtain ⟨hA, hB, hC⟩ := h
  unfold totalPlaying
  cases hact : s.lightboxActive
  · rw [hB hact]
    omega
  · rw [hC hact]
    have := lbPlaying_le_one s
    omega
theorem wrap_round (i t : Int) (h0 : 0 ≤ i) (hlt : i < t) :
    ((i + 1 + t) % t - 1 + t) % t = i := by
  have ht : 0 < t := lt_of_le_of_lt h0 hlt
  have h1 : (i + 1 + t) % t = (i + 1) % t := by
    have he : i + 1 + t = i + 1 + t * 1 := by ring
    rw [he, Int.add_mul_emod_self_left]
  rcases lt_or_eq_of_le (by omega : i + 1 ≤ t) with hlt2 | heq
  · have h2 : (i + 1) % t = i + 1 := Int.emod_eq_of_lt (by omega) hlt2
    rw [h1, h2]
    have he : i + 1 - 1 + t = i + t * 1 := by ring
    rw [he, Int.add_mul_emod_self_left]
    exact Int.emod_eq_of_lt h0 hlt
  · have h2 : (i + 1) % t = 0 := by
      rw [← heq]
      exact Int.emod_self
    rw [h1, h2]
    have he : (0 : Int) - 1 + t = t - 1 := by ring
    rw [he]
    have h3 : t - 1 = i := by omega
    rw [h3]
    exact Int.emod_eq_of_lt h0 hlt

theorem jsIndex_some_of_bounds (l : List MediaItem) (j : Int) (h0 : 0 ≤ j)
    (hlt : j < (l.length : Int)) :
    jsIndex l (some j) = some (l.get ⟨j.toNat, (Int.toNat_lt h0).mpr hlt⟩) := by
  have hnn : ¬j < 0 := Int.not_lt.mpr h0
  have hmem : j.toNat < l.length := (Int.toNat_lt h0).mpr hlt
  simp only [jsIndex, if_neg hnn]
  rw [List.getElem?_eq_getElem hmem]
  rfl

theorem navigateLightbox_ok (dir : Int) (lb : Bool) (s : AppState) (i : Int)
    (hidx : s.lightboxIndex = some i) (h0 : 0 ≤ i)
    (hlt : i < (s.filteredMedia.length : Int)) (hdir : -1 ≤ dir) :
    (navigateLightbox fullDom dir lb s).2 = none ∧
    (navigateLightbox fullDom dir lb s).1.lightboxIndex =
      some ((i + dir + s.filteredMedia.length) % (s.filteredMedia.length : Int)) ∧
    0 ≤ (i + dir + s.filteredMedia.length) % (s.filteredMedia.length : Int) ∧
    (i + dir + s.filteredMedia.length) % (s.filteredMedia.length : Int) <
      (s.filteredMedia.length : Int) ∧
    (navigateLightbox fullDom dir lb s).1.filteredMedia = s.filteredMedia ∧
    (navigateLightbox fullDom dir lb s).1.lightboxActive = true ∧
    navigateLightbox fullDom dir lb s =
      openLightbox fullDom
        (some ((i + dir + (s.filteredMedia.length : Int)).tmod (s.filteredMedia.length : Int)))
        lb
        { s with lightboxIndex :=
            (some ((i + dir + (s.filteredMedia.length : Int)).tmod
              (s.filteredMedia.length : Int))) } := by
  have ht : (0 : Int) < (s.filteredMedia.length : Int) := lt_of_le_of_lt h0 hlt
  have hlen0 : s.filteredMedia.length ≠ 0 := by
    intro hc
    rw [hc] at ht
    exact absurd ht (by simp)
  have ha : (0 : Int) ≤ i + dir + s.filteredMedia.length := by omega
  have htm : (i + dir + (s.filteredMedia.length : Int)).tmod (s.filteredMedia.length : Int) =
      (i + dir + s.filteredMedia.length) % (s.filteredMedia.length : Int) :=
    Int.tmod_eq_emod ha ht.le
  have hj0 : (0 : Int) ≤
      (i + dir + s.filteredMedia.length) % (s.filteredMedia.length : Int) :=
    Int.emod_nonneg _ (by omega)
  have hjlt : (i + dir + s.filteredMedia.length) % (s.filteredMedia.length : Int) <
      (s.filteredMedia.length : Int) :=
    Int.emod_lt_of_pos _ ht
  have heq := navigateLightbox_some_eq fullDom dir lb s i hidx hlen0
  set j : Int :=
    (i + dir + (s.filteredMedia.length : Int)).tmod (s.filteredMedia.length : Int) with hjdef
  set s2 : AppState := { s with lightboxIndex := some j } with hs2
  have hjs : jsIndex s.filteredMedia (some j) =
      some (s.filteredMedia.get ⟨j.toNat, (Int.toNat_lt (htm ▸ hj0)).mpr (htm ▸ hjlt)⟩) :=
    jsIndex_some_of_bounds s.filteredMedia j (htm ▸ hj0) (htm ▸ hjlt)
  have hjs2 : jsIndex s2.filteredMedia (some j) =
      some (s.filteredMedia.get ⟨j.toNat, (Int.toNat_lt (htm ▸ hj0)).mpr (htm ▸ hjlt)⟩) := hjs
  have heq2 := openLightbox_some_eq (some j)
    (s.filteredMedia.get ⟨j.toNat, (Int.toNat_lt (htm ▸ hj0)).mpr (htm ▸ hjlt)⟩) lb s2 hjs2
  refine ⟨?_, ?_, hj0, hjlt, ?_, ?_, heq⟩
  · rw [heq, heq2]
  · rw [heq, heq2]
    show some j = _
    exact congrArg some htm
  · rw [heq, heq2]
    rfl
  · rw [heq, heq2]
    rfl
/-- A small demonstration catalog of three images, dates descending. -/
def demoImgs : List MediaItem :=
  [ { src := "a.jpg", date := "2025-03-01", type := .image },
    { src := "b.jpg", date := "2025-02-01", type := .image },
    { src := "c.jpg", date := "2025-01-01", type := .image } ]

/-- A small mixed demonstration catalog: one image, then one video. -/
def demoMix : List MediaItem :=
  [ { src := "a.jpg", date := "2025-02-01", type := .image },
    { src := "b.mp4", date := "2025-01-01", type := .video } ]

/-- A reachable state with the lightbox open at index 0 over the three-item
image view: enter the gallery, then click the active slide. -/
def c3State : AppState :=
  step (.slideClick 0 true) (step (.enterGallery true) (initState demoImgs))

/-- C1: a filter switch recomputes FilteredView as exactly the subsequence of
the catalog whose entries have the selected type, in catalog order: it equals
List.filter, is a sublist of the catalog (no reordering), contains an item
iff the catalog contains it with the selected type (no extra, no missing),
and preserves multiplicities. -/
theorem c1_filter_switch_exact (d : Dom) (f : MediaType) (b : Bool) (s : AppState) :
    (handleTabSwitch d f b s).1.filteredMedia = s.catalog.filter (fun m => m.type == f) ∧
    List.Sublist (handleTabSwitch d f b s).1.filteredMedia s.catalog ∧
    (∀ m : MediaItem, m ∈ (handleTabSwitch d f b s).1.filteredMedia ↔
      (m ∈ s.catalog ∧ m.type = f)) ∧
    (∀ m : MediaItem, (handleTabSwitch d f b s).1.filteredMedia.count m =
      if m.type = f then s.catalog.count m else 0) := by
  have h1 := (handleTabSwitch_proj d f b s).1
  refine ⟨h1, ?_, ?_, ?_⟩
  · rw [h1]
    exact List.filter_sublist _
  · intro m
    rw [h1, List.mem_filter]
    simp
  · intro m
    rw [h1]
    by_cases hm : m.type = f
    · rw [if_pos hm, List.count_filter]
      simp [hm]
    · rw [if_neg hm, List.count_eq_zero]
      intro hmem
      exact hm (by simpa using (List.mem_filter.mp hmem).2)

/-- C3: with the lightbox at a valid index of a nonempty FilteredView and a
direction in the set containing -1 and +1, navigateLightbox moves to
(index + direction + total) mod total (wrapping at both ends), raises no
error, and re-invokes openLightbox at the new index. -/
theorem c3_navigate_modular_wrap (s : AppState) (i dir : Int) (lb : Bool)
    (hidx : s.lightboxIndex = some i) (h0 : 0 ≤ i)
    (hlt : i < (s.filteredMedia.length : Int))
    (hdir : dir = -1 ∨ dir = 1) :
    (navigateLightbox fullDom dir lb s).1.lightboxIndex =
      some ((i + dir + s.filteredMedia.length) % (s.filteredMedia.length : Int)) ∧
    (navigateLightbox fullDom dir lb s).2 = none ∧
    (navigateLightbox fullDom dir lb s).1.lightboxActive = true ∧
    navigateLightbox fullDom dir lb s =
      openLightbox fullDom
        (some ((i + dir + (s.filteredMedia.length : Int)).tmod (s.filteredMedia.length : Int)))
        lb
        { s with lightboxIndex :=
            (some ((i + dir + (s.filteredMedia.length : Int)).tmod
              (s.filteredMedia.length : Int))) } := by
  have hd : (-1 : Int) ≤ dir := by
    rcases hdir with h | h <;> omega
  obtain ⟨a1, a2, _, _, _, a6, a7⟩ := navigateLightbox_ok dir lb s i hidx h0 hlt hd
  exact ⟨a2, a1, a6, a7⟩

/-- Witness for C3: in the reachable state with the lightbox open at index 0
of the three-item FilteredView, navigate(-1) wraps to index 2. -/
theorem c3_navigate_modular_wrap_witness :
    (navigateLightbox fullDom (-1) true c3State).1.lightboxIndex = some 2 ∧
    (navigateLightbox fullDom (-1) true c3State).2 = none := by
  have h := c3_navigate_modular_wrap c3State 0 (-1) true (by decide) (by decide) (by decide)
    (Or.inl rfl)
  refine ⟨?_, h.2.1⟩
  rw [h.1]
  decide

/-- C9: navigate(+1) followed by navigate(-1) returns the lightbox to its
original index, for every nonempty FilteredView and valid starting index. -/
theorem c9_navigate_roundtrip (s : AppState) (i : Int) (lb1 lb2 : Bool)
    (hidx : s.lightboxIndex = some i) (h0 : 0 ≤ i)
    (hlt : i < (s.filteredMedia.length : Int)) :
    ((navigateLightbox fullDom (-1) lb2
      (navigateLightbox fullDom 1 lb1 s).1).1).lightboxIndex = some i := by
  obtain ⟨_, b2, b3, b4, b5, _, _⟩ := navigateLightbox_ok 1 lb1 s i hidx h0 hlt (by omega)
  obtain ⟨_, c2, _, _, _, _, _⟩ := navigateLightbox_ok (-1) lb2
    (navigateLightbox fullDom 1 lb1 s).1 _ b2 b3 (by rw [b5]; exact b4) (by omega)
  rw [c2, b5]
  have he : (i + 1 + (s.filteredMedia.length : Int)) % (s.filteredMedia.length : Int) + -1 +
      (s.filteredMedia.length : Int) =
      (i + 1 + (s.filteredMedia.length : Int)) % (s.filteredMedia.length : Int) - 1 +
      (s.filteredMedia.length : Int) := by ring
  rw [he, wrap_round i (s.filteredMedia.length : Int) h0 hlt]

/-- Witness for C9: the roundtrip from index 0 of the three-item view. -/
theorem c9_navigate_roundtrip_witness :
    ((navigateLightbox fullDom (-1) false
      (navigateLightbox fullDom 1 true c3State).1).1).lightboxIndex = some 0 :=
  c9_navigate_roundtrip c3State 0 true false (by decide) (by decide) (by decide)

/-- C10: with an empty FilteredView there is no emptiness guard in
navigateLightbox: the wrap arithmetic is a modulo by zero, so the stored
index becomes NaN (none), and the nested openLightbox reads an undefined
item and raises a TypeError when accessing its type, instead of no-op-ing
or clamping. -/
theorem c10_empty_view_navigate_nan (s : AppState) (dir : Int) (lb : Bool)
    (h : s.filteredMedia = []) :
    (navigateLightbox fullDom dir lb s).1.lightboxIndex = none ∧
    (navigateLightbox fullDom dir lb s).2 = some .undefinedItem := by
  rw [navigateLightbox_nil_eq _ _ _ _ h, openLightbox_none_eq _ _ _ (jsIndex_none _)]
  exact ⟨rfl, rfl⟩

/-- Witness for C10: navigating with an empty catalog (hence empty
FilteredView) stores a NaN index and raises the TypeError. -/
theorem c10_empty_view_navigate_nan_witness :
    (navigateLightbox fullDom 1 true (initState [])).1.lightboxIndex = none ∧
    (navigateLightbox fullDom 1 true (initState [])).2 = some .undefinedItem :=
  c10_empty_view_navigate_nan (initState []) 1 true rfl
/-- A reachable state whose active slide is a playing video: enter the
gallery over the mixed catalog, then switch to the video tab with a
successful play attempt. -/
def c2State : AppState :=
  step (.tabSwitch .video true) (step (.enterGallery true) (initState demoMix))

/-- C2: in every reachable state at most one video element across the whole
document (carousel slides plus lightbox content) is playing — in particular
immediately after every call to pauseAllVideos or handleVideoAutoplay, since
each event handler performs such a call as its final playback-state action
(showHero and openLightbox end with pauseAllVideos; gallery entry, tab
switches, slide changes and closeLightbox end with handleVideoAutoplay).
This covers the states where the open lightbox holds its own video.
Additionally: a direct pauseAllVideos call leaves no carousel video playing
and at most one video playing overall, it is idempotent, and a direct
handleVideoAutoplay call leaves at most one carousel video playing. -/
theorem c2_at_most_one_playing (cat : List MediaItem) (s : AppState)
    (h : Reachable cat s) :
    totalPlaying s ≤ 1 ∧
    galleryPlaying (pauseAllVideos s) = 0 ∧
    totalPlaying (pauseAllVideos s) ≤ 1 ∧
    pauseAllVideos (pauseAllVideos s) = pauseAllVideos s ∧
    (∀ b : Bool, galleryPlaying (handleVideoAutoplay b s) ≤ 1) := by
  have hinv := playInv_reachable h
  refine ⟨totalPlaying_le_one_of_playInv hinv, galleryPlaying_pauseAllVideos s, ?_,
    pauseAllVideos_idem s, fun b => galleryPlaying_handleVideoAutoplay b s⟩
  unfold totalPlaying
  rw [galleryPlaying_pauseAllVideos s]
  have h1 : lbPlaying (pauseAllVideos s) = lbPlaying s := lbPlaying_congr rfl
  have h2 := lbPlaying_le_one s
  omega

/-- Witness for C2: the concrete reachable state c2State has its video slide
actually playing, and the bound holds there. -/
theorem c2_at_most_one_playing_witness :
    totalPlaying c2State ≤ 1 ∧ galleryPlaying c2State = 1 := by
  constructor
  · exact (c2_at_most_one_playing demoMix c2State
      (Reachable.step _ (Reachable.step _ Reachable.init))).1
  · decide

/-- Counterexample to C6: switching to the video tab with the play attempt
rejected by the autoplay policy still hides the play overlay.  The single
rendered slide ends as a video that is not playing (the rejection was
swallowed) with overlayHidden = true, contradicting the claim that the
overlay remains visible and is hidden only on successful play. -/
theorem c6_overlay_hidden_despite_rejection_cex :
    (step (.tabSwitch .video false) (step (.enterGallery true) (initState demoMix))).slides =
      [.video false true] := by
  decide

/-- C6 amended: when the active slide holds a video, handleVideoAutoplay
swallows a rejected play attempt (the function is total; on rejection the
video is merely left paused), but the play overlay of the active slide is
hidden unconditionally right after the attempt is started, whether or not
the attempt succeeds. -/
theorem c6_rejection_swallowed_overlay_hidden (b : Bool) (s : AppState) (p o : Bool)
    (h : (pauseAllVideos s).slides[(pauseAllVideos s).activeIdx]? = some (.video p o)) :
    (handleVideoAutoplay b s).slides[(pauseAllVideos s).activeIdx]? =
      some (.video b true) := by
  rcases List.getElem?_eq_some_iff.mp h with ⟨hlt, _⟩
  simp only [handleVideoAutoplay]
  rw [h]
  simp [List.getElem?_set, hlt]

/-- A state whose one rendered slide is a paused video with visible overlay. -/
def c6Pre : AppState :=
  { initState demoMix with slides := [.video false false], activeIdx := 0 }

/-- Witness for C6 amended: a rejected attempt (playOk = false) on the video
slide leaves it paused with its overlay hidden. -/
theorem c6_rejection_swallowed_overlay_hidden_witness :
    (handleVideoAutoplay false c6Pre).slides[(pauseAllVideos c6Pre).activeIdx]? =
      some (.video false true) :=
  c6_rejection_swallowed_overlay_hidden false c6Pre false false (by decide)

/-- A reachable state in the gallery with the image filter active and the
carousel moved to slide 2. -/
def c7State : AppState :=
  step (.slideChange 2 true) (step (.enterGallery true) (initState demoImgs))

/-- Counterexample to C7: clicking the tab of the filter already active
(image) is not a no-op: the navigation position resets from 2 to 0 and a new
Carousel Widget instance is constructed (the construction counter advances). -/
theorem c7_same_filter_not_noop_cex :
    c7State.currentFilter = .image ∧
    c7State.activeIdx = 2 ∧
    (step (.tabSwitch .image true) c7State).activeIdx = 0 ∧
    (step (.tabSwitch .image true) c7State).swiperGen = c7State.swiperGen + 1 := by
  decide

theorem slides_length_handleVideoAutoplay (b : Bool) (s : AppState) :
    (handleVideoAutoplay b s).slides.length = s.slides.length := by
  simp only [handleVideoAutoplay]
  split
  · simp [pauseAllVideos]
  · simp [pauseAllVideos]

theorem slides_renderSlides (d : Dom) (s : AppState) (hd : d.swiperWrapper = true) :
    (renderSlides d s).slides = s.filteredMedia.map mkSlide := by
  have h := (updateCounter_proj d 0 { s with slides := s.filteredMedia.map mkSlide }).2.2.2.2.2.2.2.2.2
  simp [renderSlides, hd, h]

/-- C7 amended: handleTabSwitch has no guard comparing the new filter with
the current one.  For every filter — equal to the current FilterState or not
— it updates FilterState, recomputes FilteredView from the catalog, rebuilds
the slides (when the wrapper element exists, one slide per item of the new
FilteredView), constructs a fresh Carousel Widget instance, and resets the
navigation position to index 0.  Only a genuinely different filter changes
the FilteredView value, but the teardown and rebuild happen either way. -/
theorem c7_tab_switch_always_rebuilds (d : Dom) (f : MediaType) (b : Bool) (s : AppState) :
    (handleTabSwitch d f b s).1.currentFilter = f ∧
    (handleTabSwitch d f b s).1.filteredMedia = s.catalog.filter (fun m => m.type == f) ∧
    (handleTabSwitch d f b s).1.activeIdx = 0 ∧
    (handleTabSwitch d f b s).1.swiperGen = s.swiperGen + 1 ∧
    (handleTabSwitch d f b s).1.swiperInit = true ∧
    (d.swiperWrapper = true →
      (handleTabSwitch d f b s).1.slides.length =
        (s.catalog.filter (fun m => m.type == f)).length) := by
  obtain ⟨p1, _, _, _, _, p6, p7, p8, p9⟩ := handleTabSwitch_proj d f b s
  refine ⟨p6, p1, p7, p8, p9, ?_⟩
  intro hd
  show (initSwiper b (renderSlides d
    { s with currentFilter := f,
             filteredMedia := s.catalog.filter (fun m => m.type == f) })).slides.length = _
  unfold initSwiper
  rw [slides_length_handleVideoAutoplay]
  show (renderSlides d _).slides.length = _
  rw [slides_renderSlides d _ hd]
  simp

/-- Witness for C7 amended: a same-filter switch on the fresh state over the
three-image catalog resets the position and renders three slides. -/
theorem c7_tab_switch_always_rebuilds_witness :
    (handleTabSwitch fullDom .image true (initState demoImgs)).1.activeIdx = 0 ∧
    (handleTabSwitch fullDom .image true (initState demoImgs)).1.slides.length =
      ((initState demoImgs).catalog.filter (fun m => m.type == MediaType.image)).length :=
  ⟨(c7_tab_switch_always_rebuilds fullDom .image true (initState demoImgs)).2.2.1,
   (c7_tab_switch_always_rebuilds fullDom .image true (initState demoImgs)).2.2.2.2.2 rfl⟩
theorem renderSlidesOpt_getElem (isMobile : Bool) (fv : List MediaItem) (k : Nat) :
    (renderSlidesOpt isMobile fv)[k]? =
      ((if isMobile then fv.take 20 else fv)[k]?).map (fun m => (k, mkSlide m)) := by
  unfold renderSlidesOpt
  rw [List.getElem?_map, List.getElem?_enum]
  cases (if isMobile then fv.take 20 else fv)[k]? <;> rfl

/-- C4: the optimized slide renderer truncates to exactly the first 20 items
of FilteredView on a narrow viewport and renders all items on a wide one:
for a 50-item view, 20 slides narrow and 50 wide; every rendered slide is
built from the view item at its own position and carries that position as
its dataset index, and truncation is List.take, which only drops a suffix. -/
theorem c4_mobile_render_cap (fv : List MediaItem) (h : fv.length = 50) :
    (renderSlidesOpt true fv).length = 20 ∧
    (renderSlidesOpt false fv).length = 50 ∧
    (∀ isMobile : Bool, ∀ k : Nat,
      (renderSlidesOpt isMobile fv)[k]? =
        ((if isMobile then fv.take 20 else fv)[k]?).map (fun m => (k, mkSlide m))) ∧
    (∀ k : Nat, (fv.take 20)[k]? = if k < 20 then fv[k]? else none) := by
  refine ⟨?_, ?_, fun mob k => renderSlidesOpt_getElem mob fv k,
    fun k => List.getElem?_take⟩
  · simp [renderSlidesOpt, List.enum_length, List.length_take, h]
  · simp [renderSlidesOpt, List.enum_length, h]

/-- A 50-item filtered view of identical images. -/
def fv50 : List MediaItem :=
  List.replicate 50 { src := "x.jpg", date := "2025-01-01", type := .image }

/-- Witness for C4 at the concrete 50-item view. -/
theorem c4_mobile_render_cap_witness :
    fv50.length = 50 ∧
    (renderSlidesOpt true fv50).length = 20 ∧
    (renderSlidesOpt false fv50).length = 50 :=
  ⟨by simp [fv50], (c4_mobile_render_cap fv50 (by simp [fv50])).1,
    (c4_mobile_render_cap fv50 (by simp [fv50])).2.1⟩

/-- The page with the heroCover mount point missing. -/
def noHeroDom : Dom := { fullDom with heroCover := false }

/-- Counterexample to C5: with heroCover missing, showGallery dereferences
the null reference and raises a TypeError to its caller instead of silently
no-op-ing, refuting that every operation tolerates absent DOM elements. -/
theorem c5_show_gallery_throws_cex :
    (showGallery noHeroDom (initState demoMix)).2 = some .nullDeref := rfl

/-- C5 amended: only some DOM lookups degrade silently.  setFilter
(handleTabSwitch, including its slide rebuild and counter updates) guards
every DOM access and never throws; showGallery dereferences heroCover,
showHero dereferences galleryView, and closeLightbox dereferences lightbox
and then lightboxContent without guards, so each throws a TypeError to its
caller exactly when the respective element is missing; and openLightbox
completes without throwing exactly when lightboxContent is present, the
requested media item exists, and lightbox is present — otherwise it throws
to its caller, in source evaluation order: a TypeError on the null
lightboxContent, a TypeError reading the type of the undefined media item,
or a TypeError on the null lightbox. -/
theorem c5_guard_inventory (d : Dom) (f : MediaType) (b : Bool) (s : AppState)
    (i : Option Int) (lb : Bool) :
    (handleTabSwitch d f b s).2 = none ∧
    ((showGallery d s).2 = none ↔ d.heroCover = true) ∧
    ((showHero d s).2 = none ↔ d.galleryView = true) ∧
    ((closeLightbox d b s).2 = none ↔ (d.lightbox = true ∧ d.lightboxContent = true)) ∧
    ((openLightbox d i lb s).2 = none ↔
      (d.lightboxContent = true ∧ (∃ m, jsIndex s.filteredMedia i = some m) ∧
        d.lightbox = true)) ∧
    (d.lightboxContent = false → (openLightbox d i lb s).2 = some .nullDeref) ∧
    (d.lightboxContent = true → jsIndex s.filteredMedia i = none →
      (openLightbox d i lb s).2 = some .undefinedItem) ∧
    (d.lightboxContent = true → d.lightbox = false →
      ∀ m, jsIndex s.filteredMedia i = some m →
        (openLightbox d i lb s).2 = some .nullDeref) := by
  refine ⟨handleTabSwitch_snd d f b s, ?_, ?_, ?_, ?_, ?_, ?_, ?_⟩
  · cases hH : d.heroCover <;> simp [showGallery, hH]
  · cases hG : d.galleryView <;> simp [showHero, hG]
  · cases h1 : d.lightbox <;> cases h2 : d.lightboxContent <;>
      simp [closeLightbox, h1, h2]
  · cases h2 : d.lightboxContent
    · simp [openLightbox, h2]
    · rcases hm : jsIndex s.filteredMedia i with _ | m
      · simp [openLightbox, h2, hm]
      · cases h1 : d.lightbox <;> simp [openLightbox, h1, h2, hm]
  · intro h2
    simp [openLightbox, h2]
  · intro h2 hm
    simp [openLightbox, h2, hm]
  · intro h2 h1 m hm
    simp [openLightbox, h1, h2, hm]

/-- The page with the lightboxContent mount point missing. -/
def noContentDom : Dom := { fullDom with lightboxContent := false }

/-- The page with the lightbox overlay mount point missing. -/
def noLightboxDom : Dom := { fullDom with lightbox := false }

/-- Witness for C5 amended: on the full page a tab switch, a gallery entry
and a lightbox open at a valid index all complete without a TypeError, while
a missing lightboxContent and a missing lightbox each make openLightbox
throw even at a valid index. -/
theorem c5_guard_inventory_witness :
    (handleTabSwitch fullDom .video true (initState demoMix)).2 = none ∧
    (showGallery fullDom (initState demoMix)).2 = none ∧
    (openLightbox fullDom (some 0) true (initState demoMix)).2 = none ∧
    (openLightbox noContentDom (some 0) true (initState demoMix)).2 = some .nullDeref ∧
    (openLightbox noLightboxDom (some 0) true (initState demoMix)).2 = some .nullDeref := by
  have h := c5_guard_inventory fullDom .video true (initState demoMix) (some 0) true
  have hc := c5_guard_inventory noContentDom .video true (initState demoMix) (some 0) true
  have hl := c5_guard_inventory noLightboxDom .video true (initState demoMix) (some 0) true
  exact ⟨h.1, h.2.1.mpr rfl,
    h.2.2.2.2.1.mpr ⟨rfl,
      ⟨{ src := "a.jpg", date := "2025-02-01", type := .image }, by decide⟩, rfl⟩,
    hc.2.2.2.2.2.1 rfl,
    hl.2.2.2.2.2.2.2 rfl rfl { src := "a.jpg", date := "2025-02-01", type := .image }
      (by decide)⟩

theorem step_catalog (e : Ev) (s : AppState) : (step e s).catalog = s.catalog := by
  cases e with
  | enterGallery b =>
    simp only [step]
    split
    · rw [showGalleryFull_eq]
      by_cases hsw : s.swiperInit = true
      · rw [if_pos hsw]
      · rw [if_neg hsw, (initSwiper_proj b _).2.1, (renderSlides_proj fullDom _).2.1]
    · rfl
  | backToHero =>
    simp only [step]
    split
    · rw [showHeroFull_eq]
      rfl
    · rfl
  | tabSwitch f b =>
    simp only [step]
    split
    · exact (handleTabSwitch_proj fullDom f b s).2.1
    · rfl
  | slideChange i b =>
    simp only [step]
    split
    · rw [(handleVideoAutoplay_proj b _).2.1, (updateCounter_proj fullDom i _).2.1]
    · rfl
  | slideClick i lb =>
    simp only [step]
    split
    · rcases hm : jsIndex s.filteredMedia (some (i : Int)) with _ | m
      · rw [openLightbox_none_eq _ _ _ hm]
      · rw [openLightbox_some_eq _ m _ _ hm]
        rfl
    · rfl
  | lbClose b =>
    simp only [step]
    split
    · rw [closeLightbox_full_eq]
      exact (handleVideoAutoplay_proj b _).2.1
    · rfl
  | lbNav dir lb =>
    simp only [step]
    split
    · by_cases hnil : s.filteredMedia.length = 0
      · rw [navigateLightbox_nil_eq _ _ _ _ (List.length_eq_zero.mp hnil),
          openLightbox_none_eq _ _ _ (jsIndex_none _)]
      · rcases hL : s.lightboxIndex with _ | i2
        · rw [navigateLightbox_noneIdx_eq _ _ _ _ hL,
            openLightbox_none_eq _ _ _ (jsIndex_none _)]
        · rw [navigateLightbox_some_eq _ _ _ _ _ hL hnil]
          set j : Int :=
            (i2 + dir + s.filteredMedia.length).tmod s.filteredMedia.length with hj
          set s2 : AppState := { s with lightboxIndex := some j } with hs2
          rcases hm : jsIndex s2.filteredMedia (some j) with _ | m
          · rw [openLightbox_none_eq _ _ _ hm]
          · rw [openLightbox_some_eq _ m _ _ hm]
            rfl
    · rfl

/-- The three-item example manifest from the specification scenario: images
dated 2024-01-01 and 2025-01-01, and one video dated 2024-06-01. -/
def specImgs : List RawItem :=
  [ { src := "i1.jpg", date := "2024-01-01" },
    { src := "i2.jpg", date := "2025-01-01" } ]

def specVids : List RawItem :=
  [ { src := "v1.mp4", date := "2024-06-01" } ]

unseal List.merge List.mergeSort in
theorem specScenario_image_filter :
    ((mkAllMedia specImgs specVids).filter (fun m => m.type == MediaType.image)).map
      (fun m => m.date) = ["2025-01-01", "2024-01-01"] := by
  decide

unseal List.merge List.mergeSort in
theorem specScenario_video_filter :
    ((mkAllMedia specImgs specVids).filter (fun m => m.type == MediaType.video)).map
      (fun m => m.date) = ["2024-06-01"] := by
  decide

/-- C8: ALL_MEDIA is constructed once from the manifest by tagging the
images sub-list with type image and the videos sub-list with type video,
concatenating, and stable-sorting descending by date: the construction is a
permutation of the tagged concatenation and is pairwise sorted so that no
entry is followed by one with a strictly newer date.  The constructor stores
the catalog as given, and no event of the controller ever mutates it.  On
the example manifest of the specification, the image filter yields dates
2025-01-01 then 2024-01-01 and the video filter yields 2024-06-01. -/
theorem c8_catalog_construction :
    ALL_MEDIA = mkAllMedia imagesData videosData ∧
    (∀ imgs vids : List RawItem,
      (mkAllMedia imgs vids).Perm ((imgs.map tagImage) ++ (vids.map tagVideo)) ∧
      List.Pairwise (fun a b => dateGe a b = true) (mkAllMedia imgs vids)) ∧
    (∀ cat : List MediaItem, (initState cat).catalog = cat) ∧
    (∀ (e : Ev) (s : AppState), (step e s).catalog = s.catalog) ∧
    ((mkAllMedia specImgs specVids).filter (fun m => m.type == MediaType.image)).map
      (fun m => m.date) = ["2025-01-01", "2024-01-01"] ∧
    ((mkAllMedia specImgs specVids).filter (fun m => m.type == MediaType.video)).map
      (fun m => m.date) = ["2024-06-01"] := by
  have htrans : ∀ a b c : MediaItem,
      dateGe a b = true → dateGe b c = true → dateGe a c = true := by
    intro a b c hab hbc
    simp only [dateGe, decide_eq_true_eq] at hab hbc ⊢
    omega
  have htotal : ∀ a b : MediaItem, (dateGe a b || dateGe b a) = true := by
    intro a b
    simp only [dateGe, Bool.or_eq_true, decide_eq_true_eq]
    omega
  refine ⟨rfl, ?_, fun _ => rfl, step_catalog, ?_, ?_⟩
  · intro imgs vids
    exact ⟨List.mergeSort_perm _ dateGe, List.sorted_mergeSort htrans htotal _⟩
  · exact specScenario_image_filter
  · exact specScenario_video_filter
